import Mathlib

/-!
Verification of the PyWt widget-tree state-synchronization engine.

The definitions below are a shallow embedding of the Python sources:
  src/pywt/navigation.py   (Page, Navigator)
  src/pywt/application.py  (Application: registry, update queue, flush, inbound dispatch)
  src/pywt/widget.py       (Widget: set_property, remove, get_initial_state)
  src/pywt/widgets/textbox.py (TextBox.handle_event)
Python dicts are modelled as insertion-ordered association lists with
in-place overwrite on existing keys (the semantics of `d[k] = v`), and
mutable object state is passed explicitly.
-/

set_option autoImplicit false

/-- JSON-serializable property values, the value space of widget property maps. -/
inductive Value where
  | str (s : String)
  | bool (b : Bool)
  | int (n : Int)
  | null
  deriving DecidableEq, Repr

/-- Lookup in a Python dict modelled as an association list: the value at the
first (and, for well-formed dicts, only) occurrence of the key. -/
def pyGet {κ α : Type} [DecidableEq κ] (m : List (κ × α)) (k : κ) : Option α :=
  match m with
  | [] => none
  | (k1, v) :: rest => if k1 = k then some v else pyGet rest k

/-- Python dict assignment `m[k] = v`: overwrite in place when the key is
present (keeping insertion order), append otherwise. -/
def pySet {κ α : Type} [DecidableEq κ] (m : List (κ × α)) (k : κ) (v : α) : List (κ × α) :=
  match m with
  | [] => [(k, v)]
  | (k1, v1) :: rest => if k1 = k then (k, v) :: rest else (k1, v1) :: pySet rest k v

theorem pyGet_pySet_self {κ α : Type} [DecidableEq κ] (m : List (κ × α)) (k : κ) (v : α) :
    pyGet (pySet m k v) k = some v := by
  induction m with
  | nil => simp [pyGet, pySet]
  | cons hd tl ih =>
    obtain ⟨k1, v1⟩ := hd
    by_cases h : k1 = k
    · simp [pyGet, pySet, h]
    · simp [pyGet, pySet, h, ih]

theorem pyGet_pySet_ne {κ α : Type} [DecidableEq κ] (m : List (κ × α)) (k k2 : κ) (v : α)
    (h : k2 ≠ k) : pyGet (pySet m k v) k2 = pyGet m k2 := by
  induction m with
  | nil => simp [pyGet, pySet, Ne.symm h]
  | cons hd tl ih =>
    obtain ⟨k1, v1⟩ := hd
    by_cases h1 : k1 = k
    · subst h1
      simp [pyGet, pySet, Ne.symm h]
    · simp only [pySet, if_neg h1, pyGet]
      by_cases h2 : k1 = k2
      · simp [h2]
      · simp [h2, ih]

theorem pyGet_append_left {κ α : Type} [DecidableEq κ] (m l : List (κ × α)) (k : κ) (v : α)
    (h : pyGet m k = some v) : pyGet (m ++ l) k = some v := by
  induction m with
  | nil => simp [pyGet] at h
  | cons hd tl ih =>
    obtain ⟨k1, v1⟩ := hd
    by_cases h1 : k1 = k
    · simpa [pyGet, h1] using h
    · simp only [pyGet, if_neg h1] at h
      simpa [pyGet, h1] using ih h

theorem pyGet_mem {κ α : Type} [DecidableEq κ] (m : List (κ × α)) (k : κ) (v : α)
    (h : pyGet m k = some v) : (k, v) ∈ m := by
  induction m with
  | nil => simp [pyGet] at h
  | cons hd tl ih =>
    obtain ⟨k1, v1⟩ := hd
    by_cases h1 : k1 = k
    · subst h1
      simp only [pyGet, if_pos] at h
      cases h
      exact List.mem_cons_self _ _
    · simp only [pyGet, if_neg h1] at h
      exact List.mem_cons_of_mem _ (ih h)

theorem pyGet_isSome_iff_mem {κ α : Type} [DecidableEq κ] (m : List (κ × α)) (k : κ) :
    (pyGet m k).isSome = true ↔ k ∈ m.map Prod.fst := by
  induction m with
  | nil => simp [pyGet]
  | cons hd tl ih =>
    obtain ⟨k1, v1⟩ := hd
    by_cases h1 : k1 = k
    · simp [pyGet, h1]
    · simp [pyGet, h1, ih, Ne.symm h1]

/-! ## Navigator (src/pywt/navigation.py)

A `Page` (a Container subclass) carries its registration path and its
property map; the `visible` flag lives in the property map exactly as the
source stores it via `set_property`.  Attachment of the page under the
Application root (`self.app.root.add(page)`) and the outbound update records
produced by these `set_property` calls belong to the Session model further
below; the Navigator model captures the page set, visibility, current page
and history that the navigation claims are about. -/

structure Page where
  path : String
  props : List (String × Value)
  deriving DecidableEq, Repr

/-- Construction of a `Page(path, title)`: `Container.__init__` sets
`type = "Container"`, then `Page.__init__` overwrites `type` and sets
`title` and `path`. -/
def Page.new (path title : String) : Page :=
  { path := path,
    props :=
      pySet (pySet (pySet (pySet [] "type" (Value.str "Container"))
        "type" (Value.str "Page")) "title" (Value.str title)) "path" (Value.str path) }

/-- Navigator state: `pages` is the insertion-ordered dict of registered
pages, `current_page` the path of the current page (the source stores the
Page object, which is always the dict entry at that path), `default_page`
and `history` as in the source. -/
structure Navigator where
  pages : List (String × Page)
  current_page : Option String
  default_page : Option String
  history : List String
  deriving DecidableEq, Repr

def Navigator.empty : Navigator :=
  { pages := [], current_page := none, default_page := none, history := [] }

/-- `Navigator.register_page`: build the page, set its `visible` property to
`False`, store it under `path`, and make it the default when no (truthy)
default exists yet (Python `if not self.default_page`). -/
def Navigator.register_page (nav : Navigator) (path title : String) : Navigator :=
  let page := Page.new path title
  let page := { page with props := pySet page.props "visible" (Value.bool false) }
  { nav with
    pages := pySet nav.pages path page,
    default_page :=
      match nav.default_page with
      | none => some path
      | some d => if d = "" then some path else some d }

/-- The loop `for page in self.pages.values(): page.set_property("visible", False)`. -/
def hideAllPages (pages : List (String × Page)) : List (String × Page) :=
  pages.map (fun kv => (kv.1, { kv.2 with props := pySet kv.2.props "visible" (Value.bool false) }))

/-- `self.current_page = self.pages[path]; self.current_page.set_property("visible", True)`:
the dict entry at `path` (shared with `current_page`) becomes visible. -/
def showTarget (pages : List (String × Page)) (path : String) : List (String × Page) :=
  pages.map (fun kv =>
    if kv.1 = path then (kv.1, { kv.2 with props := pySet kv.2.props "visible" (Value.bool true) })
    else kv)

/-- `Navigator.navigate_to(path)`: early return when `path` is unregistered;
otherwise run the (no-op, for base pages) navigation-from hook, hide every
page, make the target page current and visible, and append the old current
page's path to the history when one existed.  The trailing
`_schedule_update` / `_send_page_widgets` calls emit outbound records and do
not touch this state. -/
def Navigator.navigate_to (nav : Navigator) (path : String) : Navigator :=
  if (pyGet nav.pages path).isSome then
    let pages1 := showTarget (hideAllPages nav.pages) path
    let history1 :=
      match nav.current_page with
      | some old => nav.history ++ [old]
      | none => nav.history
    { nav with pages := pages1, current_page := some path, history := history1 }
  else nav

/-- `Navigator.navigate_back`: when more than one history entry exists, pop
the last entry, read the new last entry as the previous path, pop it too, and
navigate there; otherwise do nothing. -/
def Navigator.navigate_back (nav : Navigator) : Navigator :=
  if 1 < nav.history.length then
    let h1 := nav.history.dropLast
    match h1.getLast? with
    | some previous_path =>
        Navigator.navigate_to { nav with history := h1.dropLast } previous_path
    | none => nav
  else nav

/-- `Navigator.initialize` (the second definition in the class body, which is
the one Python binds): navigate to the default page when it is truthy,
otherwise raise `ValueError`. -/
def Navigator.initialize (nav : Navigator) : Except String Navigator :=
  match nav.default_page with
  | some d =>
      if d = "" then Except.error "No default page set for navigation"
      else Except.ok (nav.navigate_to d)
  | none => Except.error "No default page set for navigation"

/-- The `visible` property read `page.get_property("visible", False) == True`. -/
def Page.isVisible (pg : Page) : Bool :=
  match pyGet pg.props "visible" with
  | some (Value.bool true) => true
  | _ => false

/-- Paths of the registered pages whose `visible` property is `True`. -/
def Navigator.visiblePaths (nav : Navigator) : List String :=
  (nav.pages.filter (fun kv => kv.2.isVisible)).map Prod.fst

theorem isVisible_setFalse (pg : Page) :
    Page.isVisible { pg with props := pySet pg.props "visible" (Value.bool false) } = false := by
  simp [Page.isVisible, pyGet_pySet_self]

theorem isVisible_setTrue (pg : Page) :
    Page.isVisible { pg with props := pySet pg.props "visible" (Value.bool true) } = true := by
  simp [Page.isVisible, pyGet_pySet_self]

theorem showTarget_hideAll_filter_nil (pages : List (String × Page)) (path : String)
    (h : path ∉ pages.map Prod.fst) :
    (showTarget (hideAllPages pages) path).filter (fun kv => kv.2.isVisible) = [] := by
  induction pages with
  | nil => rfl
  | cons hd tl ih =>
    obtain ⟨k, pg⟩ := hd
    simp only [List.map_cons, List.mem_cons] at h
    push_neg at h
    obtain ⟨hk, htl⟩ := h
    simp only [hideAllPages, List.map_cons, showTarget, if_neg (Ne.symm hk)]
    rw [List.filter_cons_of_neg]
    · simpa [hideAllPages, showTarget] using ih htl
    · simp [Page.isVisible, pyGet_pySet_self]

theorem showTarget_hideAll_filter_one (pages : List (String × Page)) (path : String)
    (hnd : (pages.map Prod.fst).Nodup) (hmem : path ∈ pages.map Prod.fst) :
    ((showTarget (hideAllPages pages) path).filter (fun kv => kv.2.isVisible)).map Prod.fst
      = [path] := by
  induction pages with
  | nil => simp at hmem
  | cons hd tl ih =>
    obtain ⟨k, pg⟩ := hd
    simp only [List.map_cons, List.nodup_cons] at hnd
    obtain ⟨hk, hnd2⟩ := hnd
    by_cases hkp : k = path
    · subst hkp
      simp only [hideAllPages, List.map_cons, showTarget, if_pos rfl]
      rw [List.filter_cons_of_pos]
      · have htl : (showTarget (hideAllPages tl) k).filter (fun kv => kv.2.isVisible) = [] := by
          simpa [hideAllPages, showTarget] using showTarget_hideAll_filter_nil tl k hk
        simpa [hideAllPages, showTarget] using htl
      · simp [Page.isVisible, pyGet_pySet_self]
    · have hmem2 : path ∈ tl.map Prod.fst := by
        rcases List.mem_cons.mp hmem with h | h
        · exact absurd h.symm hkp
        · exact h
      simp only [hideAllPages, List.map_cons, showTarget, if_neg hkp]
      rw [List.filter_cons_of_neg]
      · simpa [hideAllPages, showTarget] using ih hnd2 hmem2
      · simp [Page.isVisible, pyGet_pySet_self]

/-- C1: for a registered path the navigation leaves exactly the page at that
path visible; for an unregistered path the navigator state is unchanged. -/
theorem navigate_to_visibility (nav : Navigator) (p : String)
    (hnd : (nav.pages.map Prod.fst).Nodup) :
    ((pyGet nav.pages p).isSome = true → (nav.navigate_to p).visiblePaths = [p]) ∧
    ((pyGet nav.pages p).isSome = false → nav.navigate_to p = nav) := by
  constructor
  · intro h
    have hmem : p ∈ nav.pages.map Prod.fst := (pyGet_isSome_iff_mem nav.pages p).mp h
    simp only [Navigator.navigate_to, h, if_pos, Navigator.visiblePaths]
    exact showTarget_hideAll_filter_one nav.pages p hnd hmem
  · intro h
    simp [Navigator.navigate_to, h]

/-- A concrete navigator with two registered pages, for the C1 witness. -/
def navTwoPages : Navigator :=
  (Navigator.empty.register_page "home" "Home").register_page "about" "About"

/-- Witness for C1: the theorem applied at a registered and at an
unregistered path of a concrete navigator. -/
theorem navigate_to_visibility_witness :
    (navTwoPages.navigate_to "home").visiblePaths = ["home"] ∧
    navTwoPages.navigate_to "missing" = navTwoPages := by
  have hnd : (navTwoPages.pages.map Prod.fst).Nodup := by decide
  have h := navigate_to_visibility navTwoPages "home" hnd
  have h2 := navigate_to_visibility navTwoPages "missing" hnd
  exact ⟨h.1 (by decide), h2.2 (by decide)⟩

/-- Navigator with pages a, b for the round-trip trace. -/
def navAB : Navigator := (Navigator.empty.register_page "a" "A").register_page "b" "B"

/-- The round-trip sequence of the claim on a fresh navigator:
navigate to a, then to b, then back. -/
def navABrun : Navigator := ((navAB.navigate_to "a").navigate_to "b").navigate_back

/-- Navigator with pages a, b, c, navigated to c first so that the history
is long enough for navigate_back to act. -/
def navABC : Navigator :=
  ((Navigator.empty.register_page "a" "A").register_page "b" "B").register_page "c" "C"

/-- navigate to c, then a, then b, then back. -/
def navABCrun : Navigator :=
  (((navABC.navigate_to "c").navigate_to "a").navigate_to "b").navigate_back

/-- C3 (code bug): the round trip navigate_to a, navigate_to b,
navigate_back does not restore page a.  On a fresh navigator the history
after the two navigations is just the single entry a, so navigate_back is a
no-op and b stays visible and current; with an earlier navigation to c in
the history, navigate_back pops the entry a and lands on c, two pages back.
navigate_to pushes only the old page's path, while navigate_back pops two
entries on the assumption (stated in its own comments) that the current
page's path was pushed as well. -/
theorem navigate_back_round_trip_fails :
    (navABrun.visiblePaths = ["b"] ∧ navABrun.current_page = some "b" ∧
      navABrun.history = ["a"] ∧
      ¬ (navABrun.visiblePaths = ["a"] ∧ navABrun.current_page = some "a")) ∧
    (navABCrun.visiblePaths = ["c"] ∧ navABCrun.current_page = some "c" ∧
      ¬ (navABCrun.visiblePaths = ["a"] ∧ navABCrun.current_page = some "a")) := by
  decide

/-- C9: initialize navigates to the default page when a (truthy) default is
set, and reports a ValueError when no default is set. -/
theorem initialize_default (nav : Navigator) :
    (∀ d, nav.default_page = some d → d ≠ "" →
        Navigator.initialize nav = Except.ok (nav.navigate_to d)) ∧
    (nav.default_page = none →
        Navigator.initialize nav = Except.error "No default page set for navigation") := by
  constructor
  · intro d hd hne
    simp [ Navigator.initialize, hd, hne]
  · intro h
    simp [ Navigator.initialize, h]

/-- Witness for C9: a navigator whose first registered page became the
default, and the empty navigator with no default. -/
theorem initialize_default_witness :
    Navigator.initialize (Navigator.empty.register_page "home" "Home")
        = Except.ok ((Navigator.empty.register_page "home" "Home").navigate_to "home") ∧
    Navigator.initialize Navigator.empty
        = Except.error "No default page set for navigation" := by
  have h1 := initialize_default (Navigator.empty.register_page "home" "Home")
  have h2 := initialize_default Navigator.empty
  exact ⟨h1.1 "home" (by decide) (by decide), h2.2 (by decide)⟩

/-! ## Session (src/pywt/application.py, src/pywt/widget.py)

An `Application` owns the widget heap (object identity is the widget id,
which is unique: ids are uuid4 strings), the id-to-widget registry
`widgets`, the outbound update queue and the set of connected transports.
Widget objects hold the mutable fields the claims touch; mutation is
explicit state passing on `AppState`. -/

/-- One entry of the outbound queue (`_schedule_update` payloads relevant to
the widget claims). -/
inductive ChangeRecord where
  | update (id : String) (property : String) (value : Value)
  | remove (id : String)
  deriving DecidableEq, Repr

/-- The mutable state of a `Widget` object: parent link, ordered child ids,
whether `self.app` is set, and the property map. -/
structure WidgetObj where
  id : String
  parent : Option String
  children : List String
  app : Bool
  props : List (String × Value)
  deriving DecidableEq, Repr

/-- Application state: heap of widget objects keyed by id, the
`self.widgets` id registry, the `_update_queue`, and `_clients`. -/
structure AppState where
  heap : List (String × WidgetObj)
  widgets : List String
  update_queue : List ChangeRecord
  clients : List String
  deriving DecidableEq, Repr

/-- `Widget.set_property(name, value)`: overwrite the property and, when
`self.app` is set, append an update record to the queue (`_schedule_update`
appends and, at most, starts the flush task — modelled by
`AppState.process_updates` below). -/
def AppState.set_property (st : AppState) (wid nm : String) (v : Value) : AppState :=
  match pyGet st.heap wid with
  | none => st
  | some w =>
      let st1 := { st with heap := pySet st.heap wid ({ w with props := pySet w.props nm v }) }
      if w.app then
        { st1 with update_queue := st1.update_queue ++ [ChangeRecord.update wid nm v] }
      else st1

/-- `Widget.remove(child)`: when the child is among the children, drop its
first occurrence from the list, clear its parent link, and when `self.app`
is set enqueue a single remove record carrying the child's id. -/
def AppState.remove (st : AppState) (parentId childId : String) : AppState :=
  match pyGet st.heap parentId with
  | none => st
  | some p =>
      if childId ∈ p.children then
        let p1 := { p with children := p.children.erase childId }
        let st1 := { st with heap := pySet st.heap parentId p1 }
        let st2 :=
          match pyGet st1.heap childId with
          | some c => { st1 with heap := pySet st1.heap childId ({ c with parent := none }) }
          | none => st1
        if p.app then
          { st2 with update_queue := st2.update_queue ++ [ChangeRecord.remove childId] }
        else st2
      else st

/-- `Application._process_updates` after its initial `await asyncio.sleep(0)`
yield: when the queue or the client set is empty, return with no send and no
change; otherwise copy the queue, clear it, and send the copy (the returned
message) to every client. -/
def AppState.process_updates (st : AppState) : AppState × Option (List ChangeRecord) :=
  if st.update_queue.isEmpty || st.clients.isEmpty then (st, none)
  else ({ st with update_queue := [] }, some st.update_queue)

/-- An inbound `{"event": {...}}` payload: widget id, event type, data. -/
structure InboundEvent where
  id : String
  etype : String
  data : List (String × Value)
  deriving DecidableEq, Repr

/-- Outcome of inbound dispatch.  `routed` means the registry lookup found
the widget and `widget.handle_event(type, data)` was invoked;
`reportedUnknown` is the reported-not-fatal branch that just logs the
missing id; `navigated` would mean a call to `Navigator.navigate_to` — the
constructor exists to state the spec's expected forwarding, and the source
never produces it. -/
inductive DispatchResult where
  | routed (id : String) (etype : String) (data : List (String × Value))
  | reportedUnknown (id : String)
  | navigated (path : String)
  deriving DecidableEq, Repr

/-- `Application.handle_client_message` on an event message: look the id up
in `self.widgets` and dispatch to the widget, else report the unknown id and
continue.  There is no navigation branch in the source. -/
def AppState.handle_client_message (st : AppState) (ev : InboundEvent) : DispatchResult :=
  if ev.id ∈ st.widgets then DispatchResult.routed ev.id ev.etype ev.data
  else DispatchResult.reportedUnknown ev.id

/-- Modelled from the spec: `dispatchInbound` as §4.3/§6 describe it — the
reserved form id == "navigation", type == "navigate" with a data.path is
forwarded to `Navigator.navigateTo`; everything else is routed through the
registry.  This definition follows the spec's words and exists only to be
compared with `AppState.handle_client_message`, the embedding of the source. -/
def specDispatchInbound (st : AppState) (ev : InboundEvent) : DispatchResult :=
  if ev.id = "navigation" ∧ ev.etype = "navigate" then
    match pyGet ev.data "path" with
    | some (Value.str p) => DispatchResult.navigated p
    | _ => DispatchResult.reportedUnknown ev.id
  else if ev.id ∈ st.widgets then DispatchResult.routed ev.id ev.etype ev.data
  else DispatchResult.reportedUnknown ev.id

/-- The app reference carried by the widget at `x`, when `x` is on the heap. -/
def heapApp (heap : List (String × WidgetObj)) (x : String) : Option Bool :=
  (pyGet heap x).map WidgetObj.app

/-- Python truthiness of `self.app` for the widget at `wid`. -/
def AppState.attached (st : AppState) (wid : String) : Bool :=
  (heapApp st.heap wid).getD false

theorem attached_exists (st : AppState) (wid : String) (h : st.attached wid = true) :
    ∃ w, pyGet st.heap wid = some w ∧ w.app = true := by
  unfold AppState.attached heapApp at h
  cases hw : pyGet st.heap wid with
  | none => rw [hw] at h; simp at h
  | some w =>
      rw [hw] at h
      exact ⟨w, rfl, by simpa using h⟩

theorem heapApp_pySet (heap : List (String × WidgetObj)) (wid : String) (w w2 : WidgetObj)
    (hw : pyGet heap wid = some w) (happ : w2.app = w.app) (x : String) :
    heapApp (pySet heap wid w2) x = heapApp heap x := by
  unfold heapApp
  by_cases hx : x = wid
  · subst hx
    rw [pyGet_pySet_self, hw]
    simp [happ]
  · rw [pyGet_pySet_ne _ _ _ _ hx]

theorem set_property_eq_of_attached (st : AppState) (wid nm : String) (v : Value)
    (w : WidgetObj) (hw : pyGet st.heap wid = some w) (hap : w.app = true) :
    st.set_property wid nm v
      = { st with
          heap := pySet st.heap wid ({ w with props := pySet w.props nm v }),
          update_queue := st.update_queue ++ [ChangeRecord.update wid nm v] } := by
  simp [AppState.set_property, hw, hap]

theorem set_property_eq_of_detached (st : AppState) (wid nm : String) (v : Value)
    (w : WidgetObj) (hw : pyGet st.heap wid = some w) (hap : w.app = false) :
    st.set_property wid nm v
      = { st with heap := pySet st.heap wid ({ w with props := pySet w.props nm v }) } := by
  simp [AppState.set_property, hw, hap]

theorem set_property_eq_of_missing (st : AppState) (wid nm : String) (v : Value)
    (hw : pyGet st.heap wid = none) :
    st.set_property wid nm v = st := by
  simp [AppState.set_property, hw]

theorem set_property_queue (st : AppState) (wid nm : String) (v : Value)
    (h : st.attached wid = true) :
    (st.set_property wid nm v).update_queue
      = st.update_queue ++ [ChangeRecord.update wid nm v] := by
  obtain ⟨w, hw, happ⟩ := attached_exists st wid h
  rw [set_property_eq_of_attached st wid nm v w hw happ]

theorem set_property_attached (st : AppState) (wid nm : String) (v : Value) (x : String) :
    (st.set_property wid nm v).attached x = st.attached x := by
  cases hw : pyGet st.heap wid with
  | none => rw [set_property_eq_of_missing st wid nm v hw]
  | some w =>
      cases hap : w.app with
      | true =>
          rw [set_property_eq_of_attached st wid nm v w hw hap]
          show (heapApp (pySet st.heap wid ({ w with props := pySet w.props nm v })) x).getD false
              = (heapApp st.heap x).getD false
          rw [heapApp_pySet st.heap wid w ({ w with props := pySet w.props nm v }) hw rfl x]
      | false =>
          rw [set_property_eq_of_detached st wid nm v w hw hap]
          show (heapApp (pySet st.heap wid ({ w with props := pySet w.props nm v })) x).getD false
              = (heapApp st.heap x).getD false
          rw [heapApp_pySet st.heap wid w ({ w with props := pySet w.props nm v }) hw rfl x]

theorem set_property_clients (st : AppState) (wid nm : String) (v : Value) :
    (st.set_property wid nm v).clients = st.clients := by
  cases hw : pyGet st.heap wid with
  | none => rw [set_property_eq_of_missing st wid nm v hw]
  | some w =>
      cases hap : w.app with
      | true => rw [set_property_eq_of_attached st wid nm v w hw hap]
      | false => rw [set_property_eq_of_detached st wid nm v w hw hap]

/-- A burst of `set_property` calls with no yielding point between them:
each call is `(widget id, property name, value)`. -/
def runSetCalls (st : AppState) (calls : List (String × String × Value)) : AppState :=
  calls.foldl (fun s c => s.set_property c.1 c.2.1 c.2.2) st

/-- The update record `set_property` enqueues for one call. -/
def updateRecordOf (c : String × String × Value) : ChangeRecord :=
  ChangeRecord.update c.1 c.2.1 c.2.2

theorem runSetCalls_queue (st : AppState) (calls : List (String × String × Value))
    (h : ∀ c ∈ calls, st.attached c.1 = true) :
    (runSetCalls st calls).update_queue = st.update_queue ++ calls.map updateRecordOf := by
  induction calls generalizing st with
  | nil => simp [runSetCalls]
  | cons c cs ih =>
      have hc : st.attached c.1 = true := h c (List.mem_cons_self _ _)
      have hcs : ∀ d ∈ cs, (st.set_property c.1 c.2.1 c.2.2).attached d.1 = true := by
        intro d hd
        rw [set_property_attached]
        exact h d (List.mem_cons_of_mem _ hd)
      have hrw : runSetCalls st (c :: cs) = runSetCalls (st.set_property c.1 c.2.1 c.2.2) cs := rfl
      rw [hrw, ih _ hcs, set_property_queue st c.1 c.2.1 c.2.2 hc]
      simp [updateRecordOf]

theorem runSetCalls_clients (st : AppState) (calls : List (String × String × Value)) :
    (runSetCalls st calls).clients = st.clients := by
  induction calls generalizing st with
  | nil => rfl
  | cons c cs ih =>
      have hrw : runSetCalls st (c :: cs) = runSetCalls (st.set_property c.1 c.2.1 c.2.2) cs := rfl
      rw [hrw, ih, set_property_clients]

theorem isEmpty_false_of_ne_nil {α : Type} {l : List α} (h : l ≠ []) : l.isEmpty = false := by
  cases l with
  | nil => exact absurd rfl h
  | cons a t => rfl

/-- C4: a storm of set_property calls on attached widgets appends exactly one
update record per call, in call order, with no suppression of writes of an
unchanged value; the next flush then sends precisely those records after the
previously queued ones. -/
theorem set_property_storm (st : AppState) (calls : List (String × String × Value))
    (h : ∀ c ∈ calls, st.attached c.1 = true) :
    (runSetCalls st calls).update_queue = st.update_queue ++ calls.map updateRecordOf ∧
    (calls ≠ [] → st.clients ≠ [] →
      (runSetCalls st calls).process_updates
        = ({ runSetCalls st calls with update_queue := [] },
            some (st.update_queue ++ calls.map updateRecordOf))) := by
  have hq := runSetCalls_queue st calls h
  refine ⟨hq, ?_⟩
  intro hne hcl
  have h1 : (runSetCalls st calls).update_queue.isEmpty = false := by
    rw [hq]
    apply isEmpty_false_of_ne_nil
    intro hx
    rcases List.append_eq_nil.mp hx with ⟨h3, h4⟩
    cases calls with
    | nil => exact hne rfl
    | cons a l => simp at h4
  have h2 : (runSetCalls st calls).clients.isEmpty = false := by
    rw [runSetCalls_clients]
    exact isEmpty_false_of_ne_nil hcl
  have hcond : ((runSetCalls st calls).update_queue.isEmpty
      || (runSetCalls st calls).clients.isEmpty) = false := by
    rw [h1, h2]
    rfl
  unfold AppState.process_updates
  rw [hcond]
  simp [hq]

/-- A widget attached to the session, and a session with one transport. -/
def wStorm : WidgetObj :=
  { id := "w1", parent := none, children := [], app := true, props := [] }

def stStorm : AppState :=
  { heap := [("w1", wStorm)], widgets := ["w1"], update_queue := [], clients := ["c1"] }

/-- Two writes of the same value to the same property. -/
def stormCalls : List (String × String × Value) :=
  [("w1", "text", Value.str "a"), ("w1", "text", Value.str "a")]

/-- Witness for C4: two equal-value writes produce two records in order and
the flush ships exactly them. -/
theorem set_property_storm_witness :
    (runSetCalls stStorm stormCalls).update_queue
      = stStorm.update_queue ++ stormCalls.map updateRecordOf ∧
    (runSetCalls stStorm stormCalls).process_updates
      = ({ runSetCalls stStorm stormCalls with update_queue := [] },
          some (stStorm.update_queue ++ stormCalls.map updateRecordOf)) := by
  have h := set_property_storm stStorm stormCalls (by decide)
  exact ⟨h.1, h.2 (by decide) (by decide)⟩

/-- C5: a flush with an empty queue or with no connected transports sends
nothing and leaves the state, queue included, unchanged; the pending records
survive and are exactly what a later flush with a connected transport sends. -/
theorem process_updates_empty_or_no_clients (st : AppState) :
    ((st.update_queue = [] ∨ st.clients = []) → st.process_updates = (st, none)) ∧
    (st.update_queue ≠ [] → ∀ c : List String, c ≠ [] →
      (AppState.process_updates { st with clients := c })
        = ({ st with clients := c, update_queue := [] }, some st.update_queue)) := by
  constructor
  · intro h
    rcases h with h | h <;> simp [AppState.process_updates, h]
  · intro hq c hc
    have h1 : st.update_queue.isEmpty = false := isEmpty_false_of_ne_nil hq
    have h2 : c.isEmpty = false := isEmpty_false_of_ne_nil hc
    simp [AppState.process_updates, h1, h2]

/-- A session with one pending record and no transport. -/
def stPending : AppState :=
  { heap := [], widgets := [], update_queue := [ChangeRecord.remove "w9"], clients := [] }

/-- Witness for C5: a flush with no transports is a no-op, and the same
pending record is delivered once a transport is connected. -/
theorem process_updates_empty_or_no_clients_witness :
    stPending.process_updates = (stPending, none) ∧
    AppState.process_updates { stPending with clients := ["c1"] }
      = ({ stPending with clients := ["c1"], update_queue := [] }, some stPending.update_queue) := by
  have h := process_updates_empty_or_no_clients stPending
  exact ⟨h.1 (Or.inr rfl), h.2 (by decide) ["c1"] (by decide)⟩

/-- C6: detaching a child from an attached parent appends exactly one remove
record, carrying the child's id, whatever subtree hangs below the child (the
state is arbitrary, so the child may have any number of descendants). -/
theorem remove_enqueues_single_record (st : AppState) (parentId childId : String)
    (p : WidgetObj) (hp : pyGet st.heap parentId = some p) (hc : childId ∈ p.children)
    (hap : p.app = true) :
    (st.remove parentId childId).update_queue
      = st.update_queue ++ [ChangeRecord.remove childId] := by
  simp only [AppState.remove, hp]
  rw [if_pos hc, if_pos hap]
  split <;> rfl

/-- Parent, child and grandchild widgets for the C6 witness. -/
def wParent : WidgetObj :=
  { id := "p", parent := none, children := ["w1"], app := true, props := [] }

def wChild : WidgetObj :=
  { id := "w1", parent := some "p", children := ["g"], app := true, props := [] }

def wGrand : WidgetObj :=
  { id := "g", parent := some "w1", children := [], app := true, props := [] }

def stTree : AppState :=
  { heap := [("p", wParent), ("w1", wChild), ("g", wGrand)],
    widgets := ["p", "w1", "g"], update_queue := [], clients := [] }

/-- Witness for C6: removing a child that itself has a child enqueues the
single remove record for the child only. -/
theorem remove_enqueues_single_record_witness :
    (stTree.remove "p" "w1").update_queue
      = stTree.update_queue ++ [ChangeRecord.remove "w1"] :=
  remove_enqueues_single_record stTree "p" "w1" wParent (by decide) (by decide) (by decide)

/-- The root container as `Application.__init__` leaves it: registered under
its id, `app` set, its `type` property written (the write also queued one
update record, since `self.app` was already set). -/
def wRoot : WidgetObj :=
  { id := "root", parent := none, children := [], app := true,
    props := [("type", Value.str "RootContainer")] }

def stRoot : AppState :=
  { heap := [("root", wRoot)], widgets := ["root"],
    update_queue := [ChangeRecord.update "root" "type" (Value.str "RootContainer")],
    clients := [] }

/-- The reserved navigation request of the wire protocol. -/
def evNavigate : InboundEvent :=
  { id := "navigation", etype := "navigate", data := [("path", Value.str "home")] }

/-- Counterexample for C2: on a fresh application the navigation-request
message is not forwarded anywhere — `handle_client_message` treats the
synthetic id "navigation" as an ordinary unknown widget id and merely
reports it, while the spec-modelled dispatch would call
`Navigator.navigate_to("home")`. -/
theorem handle_client_message_navigation_not_forwarded :
    stRoot.handle_client_message evNavigate = DispatchResult.reportedUnknown "navigation" ∧
    specDispatchInbound stRoot evNavigate = DispatchResult.navigated "home" ∧
    stRoot.handle_client_message evNavigate ≠ specDispatchInbound stRoot evNavigate := by
  decide

/-- C2 (amended): every inbound event message, the synthetic id "navigation"
included, is routed purely through the id-to-widget registry — a registered
id is dispatched to that widget's handle_event, an unregistered id is
reported but not fatal, and no message is ever forwarded to
`Navigator.navigate_to`. -/
theorem handle_client_message_registry_only (st : AppState) (ev : InboundEvent) :
    (ev.id ∈ st.widgets →
      st.handle_client_message ev = DispatchResult.routed ev.id ev.etype ev.data) ∧
    (ev.id ∉ st.widgets →
      st.handle_client_message ev = DispatchResult.reportedUnknown ev.id) ∧
    (∀ p, st.handle_client_message ev ≠ DispatchResult.navigated p) := by
  refine ⟨?_, ?_, ?_⟩
  · intro h
    simp [AppState.handle_client_message, h]
  · intro h
    simp [AppState.handle_client_message, h]
  · intro p
    by_cases h : ev.id ∈ st.widgets <;> simp [AppState.handle_client_message, h]

/-- Witness for C2 (amended): a registered id is routed; the navigation id,
being unregistered, is reported and not forwarded. -/
theorem handle_client_message_registry_only_witness :
    stRoot.handle_client_message { id := "root", etype := "click", data := [] }
      = DispatchResult.routed "root" "click" [] ∧
    stRoot.handle_client_message evNavigate = DispatchResult.reportedUnknown "navigation" ∧
    stRoot.handle_client_message evNavigate ≠ DispatchResult.navigated "home" := by
  have h1 := handle_client_message_registry_only stRoot
    { id := "root", etype := "click", data := [] }
  have h2 := handle_client_message_registry_only stRoot evNavigate
  exact ⟨h1.1 (by decide), h2.2.1 (by decide), h2.2.2 "home"⟩

theorem remove_widgets (st : AppState) (parentId childId : String) :
    (st.remove parentId childId).widgets = st.widgets := by
  cases hp : pyGet st.heap parentId with
  | none => simp [AppState.remove, hp]
  | some p =>
      by_cases hc : childId ∈ p.children
      · simp only [AppState.remove, hp]
        rw [if_pos hc]
        split <;> split <;> rfl
      · simp only [AppState.remove, hp]
        rw [if_neg hc]

theorem remove_attached (st : AppState) (parentId childId x : String) :
    (st.remove parentId childId).attached x = st.attached x := by
  cases hp : pyGet st.heap parentId with
  | none => simp [AppState.remove, hp]
  | some p =>
      have hkey : ∀ x2, heapApp (pySet st.heap parentId
          ({ p with children := p.children.erase childId })) x2 = heapApp st.heap x2 :=
        fun x2 => heapApp_pySet st.heap parentId p
          ({ p with children := p.children.erase childId }) hp rfl x2
      by_cases hc : childId ∈ p.children
      · simp only [AppState.remove, hp]
        rw [if_pos hc]
        split
        · split
          · rename_i c heq
            simp only [AppState.attached]
            rw [heapApp_pySet _ childId c ({ c with parent := none }) heq rfl x, hkey x]
          · simp only [AppState.attached]
            rw [hkey x]
        · split
          · rename_i c heq
            simp only [AppState.attached]
            rw [heapApp_pySet _ childId c ({ c with parent := none }) heq rfl x, hkey x]
          · simp only [AppState.attached]
            rw [hkey x]
      · simp only [AppState.remove, hp]
        rw [if_neg hc]

/-- C10: Widget.remove never touches the application registry or the
child's app reference — after a detach the child is still registered, still
attached, an inbound event carrying its id is still routed to it, and a
set_property on it still appends an update record to the outbound queue. -/
theorem remove_leaves_registration (st : AppState) (parentId childId : String)
    (hreg : childId ∈ st.widgets) (happ : st.attached childId = true) :
    childId ∈ (st.remove parentId childId).widgets ∧
    (st.remove parentId childId).attached childId = true ∧
    (∀ et data, (st.remove parentId childId).handle_client_message
        { id := childId, etype := et, data := data } = DispatchResult.routed childId et data) ∧
    (∀ nm v, ((st.remove parentId childId).set_property childId nm v).update_queue
        = (st.remove parentId childId).update_queue
            ++ [ChangeRecord.update childId nm v]) := by
  have hw := remove_widgets st parentId childId
  have ha := remove_attached st parentId childId childId
  refine ⟨?_, ?_, ?_, ?_⟩
  · rw [hw]
    exact hreg
  · rw [ha]
    exact happ
  · intro et data
    simp [AppState.handle_client_message, hw, hreg]
  · intro nm v
    exact set_property_queue _ childId nm v (by rw [ha]; exact happ)

/-- Witness for C10: after detaching the child from the tree of `stTree`,
the child is still registered, routed to, and its writes still enqueue. -/
theorem remove_leaves_registration_witness :
    "w1" ∈ (stTree.remove "p" "w1").widgets ∧
    (stTree.remove "p" "w1").attached "w1" = true ∧
    (stTree.remove "p" "w1").handle_client_message
        { id := "w1", etype := "click", data := [] }
      = DispatchResult.routed "w1" "click" [] ∧
    ((stTree.remove "p" "w1").set_property "w1" "text" (Value.str "x")).update_queue
      = (stTree.remove "p" "w1").update_queue
          ++ [ChangeRecord.update "w1" "text" (Value.str "x")] := by
  have h := remove_leaves_registration stTree "p" "w1" (by decide) (by decide)
  exact ⟨h.1, h.2.1, h.2.2.1 "click" [], h.2.2.2 "text" (Value.str "x")⟩

/-! ## TextBox (src/pywt/widgets/textbox.py) -/

/-- Observable actions of `TextBox.handle_event`, in execution order: a
`set_property` write, and one `on_change.emit(event)` whose event carries
the full inbound data dict. -/
inductive TBAction where
  | setProp (name : String) (value : Value)
  | emitChange (data : List (String × Value))
  deriving DecidableEq, Repr

/-- `TextBox.handle_event(event_type, data)`: for a change event whose data
has a value, write the value property first, then emit the change signal
once; any other event does nothing.  Returns the updated property map and
the ordered action trace. -/
def TextBox.handle_event (props : List (String × Value)) (event_type : String)
    (data : List (String × Value)) : List (String × Value) × List TBAction :=
  if event_type = "change" then
    match pyGet data "value" with
    | some v => (pySet props "value" v, [TBAction.setProp "value" v, TBAction.emitChange data])
    | none => (props, [])
  else (props, [])

/-- C8: a change event carrying value x produces exactly the two-action
trace write-then-emit — the property write precedes the single signal
emission, whose event carries the data holding x — and afterwards the value
property reads back as x. -/
theorem textbox_change_event (props data : List (String × Value)) (x : String)
    (hx : pyGet data "value" = some (Value.str x)) :
    (TextBox.handle_event props "change" data).2
      = [TBAction.setProp "value" (Value.str x), TBAction.emitChange data] ∧
    pyGet (TextBox.handle_event props "change" data).1 "value" = some (Value.str x) := by
  simp [TextBox.handle_event, hx, pyGet_pySet_self]

/-- Witness for C8: a TextBox with its initial properties receiving a
change event with value "x". -/
theorem textbox_change_event_witness :
    (TextBox.handle_event [("type", Value.str "TextBox"), ("value", Value.str ""),
        ("placeholder", Value.str "")] "change" [("value", Value.str "x")]).2
      = [TBAction.setProp "value" (Value.str "x"),
         TBAction.emitChange [("value", Value.str "x")]] ∧
    pyGet (TextBox.handle_event [("type", Value.str "TextBox"), ("value", Value.str ""),
        ("placeholder", Value.str "")] "change" [("value", Value.str "x")]).1 "value"
      = some (Value.str "x") :=
  textbox_change_event _ _ "x" (by decide)

/-! ## Snapshot copying (Widget.get_initial_state, src/pywt/widget.py)

To state that `dict(self._properties)` produces a copy rather than a live
view, property dicts get explicit addresses in a store: a widget references
its `_properties` dict by address, `set_property` mutates the dict at the
widget's address in place, and `get_initial_state` allocates a fresh
address holding a copy of the current contents. -/

structure PropStore where
  maps : List (Nat × List (String × Value))
  next : Nat
  deriving DecidableEq, Repr

def PropStore.get (s : PropStore) (a : Nat) : Option (List (String × Value)) :=
  pyGet s.maps a

/-- Store well-formedness: every allocated address is below the counter. -/
def PropStore.wf (s : PropStore) : Prop :=
  ∀ kv ∈ s.maps, kv.1 < s.next

/-- The fields of a live widget that the snapshot reads: id, parent link,
and the address of its `_properties` dict. -/
structure WidgetRef where
  id : String
  parent : Option String
  propsAddr : Nat
  deriving DecidableEq, Repr

/-- The `properties` entry of the snapshot: `dict(self._properties)`
followed by `state["properties"]["parent"] = self.parent.id` when a parent
exists and the copy has no "parent" key yet. -/
def snapshotCopy (m : List (String × Value)) (parent : Option String) :
    List (String × Value) :=
  match parent with
  | some pid => if (pyGet m "parent").isSome then m else pySet m "parent" (Value.str pid)
  | none => m

/-- `Widget.get_initial_state`: read the property dict and allocate the copy
at a fresh address.  Returns the new store and the snapshot's address. -/
def get_initial_state (s : PropStore) (w : WidgetRef) : PropStore × Nat :=
  match s.get w.propsAddr with
  | some m => ({ maps := s.maps ++ [(s.next, snapshotCopy m w.parent)], next := s.next + 1 },
      s.next)
  | none => (s, s.next)

/-- `Widget.set_property` at the store level: overwrite one key of the dict
at the widget's own address, in place. -/
def store_set_property (s : PropStore) (w : WidgetRef) (nm : String) (v : Value) : PropStore :=
  match s.get w.propsAddr with
  | some m => { s with maps := pySet s.maps w.propsAddr (pySet m nm v) }
  | none => s

/-- C7: a set_property performed on the live widget after a snapshot was
taken leaves the snapshot's property map untouched — the snapshot address
holds the same dict before and after the write. -/
theorem snapshot_immutable (s : PropStore) (w : WidgetRef) (nm : String) (v : Value)
    (m : List (String × Value)) (hwf : s.wf) (hm : s.get w.propsAddr = some m) :
    (store_set_property (get_initial_state s w).1 w nm v).get (get_initial_state s w).2
      = (get_initial_state s w).1.get (get_initial_state s w).2 := by
  have hmem := pyGet_mem s.maps w.propsAddr m hm
  have ha : w.propsAddr < s.next := hwf _ hmem
  have hne : s.next ≠ w.propsAddr := Ne.symm (Nat.ne_of_lt ha)
  simp only [get_initial_state, hm]
  have hget1 : pyGet (s.maps ++ [(s.next, snapshotCopy m w.parent)]) w.propsAddr = some m :=
    pyGet_append_left s.maps [(s.next, snapshotCopy m w.parent)] w.propsAddr m hm
  simp only [store_set_property, PropStore.get, hget1]
  exact pyGet_pySet_ne _ _ _ _ hne

/-- A one-widget store for the C7 witness. -/
def storeW : PropStore := { maps := [(0, [("value", Value.str "a")])], next := 1 }

def widgetW : WidgetRef := { id := "w1", parent := some "root", propsAddr := 0 }

/-- Witness for C7: snapshot the widget, then overwrite its value; the
snapshot's dict is unchanged. -/
theorem snapshot_immutable_witness :
    (store_set_property (get_initial_state storeW widgetW).1 widgetW "value"
        (Value.str "b")).get (get_initial_state storeW widgetW).2
      = (get_initial_state storeW widgetW).1.get (get_initial_state storeW widgetW).2 :=
  snapshot_immutable storeW widgetW "value" (Value.str "b") [("value", Value.str "a")]
    (by unfold PropStore.wf; decide) (by decide)
